import Mathlib

/-!
Shallow embedding of the local MCP tool bridge (`src/agents/mcp-local-tools.ts`)
and the default client tools catalog loader, together with theorems checking
the design document's statements against this embedding.

The JavaScript builtins `JSON.parse` and `JSON.stringify` are modelled as
abstract function parameters (`parse`, `stringify`); everything else is a
direct translation of the TypeScript source.
-/

namespace OpenClaw

/-- JSON-compatible values, the data flowing through the bridge. -/
inductive Json where
  | null : Json
  | bool (b : Bool) : Json
  | num (n : Int) : Json
  | str (s : String) : Json
  | arr (items : List Json) : Json
  | obj (fields : List (String × Json)) : Json

/-- `isPlainObject` from mcp-local-tools.ts: a value of JavaScript type
"object" that is neither null nor an array. -/
def isPlainObject : Json → Bool
  | .obj _ => true
  | _ => false

/-- Model of the JavaScript string builtin trim: strip whitespace from both
ends. -/
def jsTrim (s : String) : String :=
  String.mk (((s.data.dropWhile Char.isWhitespace).reverse.dropWhile
    Char.isWhitespace).reverse)

/-- Model of the JavaScript string builtin slice with start 0: keep the
first n characters. -/
def jsSlice (s : String) (n : Nat) : String :=
  String.mk (s.data.take n)

/-- Constant `MCPORTER_CALL_TIMEOUT_MS` from mcp-local-tools.ts. -/
def MCPORTER_CALL_TIMEOUT_MS : Nat := 60000

/-- Constant `MCPORTER_MAX_OUTPUT_CHARS` from mcp-local-tools.ts. -/
def MCPORTER_MAX_OUTPUT_CHARS : Nat := 500000

/-- The value `runMcporterCall` resolves with: accumulated stdout and stderr
text plus the exit code, where `none` models the JavaScript `null` code
(process killed or never exited normally). -/
structure ProcOutcome where
  stdout : String
  stderr : String
  code : Option Int
deriving Repr, DecidableEq

/-- Mutable state of one `runMcporterCall` invocation: the two stream
buffers, the (single, shared) truncation flag `stdoutTruncated`, whether the
timeout timer is still pending, whether the child has received a kill
signal, and the promise resolution value (at most one). -/
structure InvokeState where
  stdout : String
  stderr : String
  stdoutTruncated : Bool
  timerPending : Bool
  killed : Bool
  outcome : Option ProcOutcome
deriving Repr, DecidableEq

/-- The events the event loop can deliver to one invocation: a data chunk on
stdout or stderr, the timeout timer firing, a spawn error, the process close
event carrying the exit code, and the external abort signal firing. -/
inductive Event where
  | data (isErr : Bool) (chunk : String) : Event
  | timeout : Event
  | spawnError (err : String) : Event
  | close (code : Option Int) : Event
  | abortFire : Event
deriving Repr, DecidableEq

/-- The stderr message synthesized when the timeout fires. -/
def timeoutMessage (timeoutMs : Nat) : String :=
  "mcporter call timed out after " ++ toString timeoutMs ++ "ms"

/-- `onData` from runMcporterCall: append a chunk to the stream's buffer; if
the result exceeds `MCPORTER_MAX_OUTPUT_CHARS`, keep only the first
`MCPORTER_MAX_OUTPUT_CHARS` characters and set the shared truncation flag. -/
def onData (st : InvokeState) (chunk : String) (isErr : Bool) : InvokeState :=
  let buf := if isErr then st.stderr else st.stdout
  let next := buf ++ chunk
  if next.length > MCPORTER_MAX_OUTPUT_CHARS then
    if isErr then
      { st with stdoutTruncated := true,
                stderr := jsSlice next MCPORTER_MAX_OUTPUT_CHARS }
    else
      { st with stdoutTruncated := true,
                stdout := jsSlice next MCPORTER_MAX_OUTPUT_CHARS }
  else
    if isErr then { st with stderr := next } else { st with stdout := next }

/-- Promise resolution: the first call wins, later calls are no-ops. -/
def resolveWith (st : InvokeState) (o : ProcOutcome) : InvokeState :=
  match st.outcome with
  | some _ => st
  | none => { st with outcome := some o }

/-- Initial state of one invocation: empty buffers, and the timer armed
exactly when the timeout constant is positive. -/
def initState (timeoutMs : Nat) : InvokeState :=
  { stdout := "", stderr := "", stdoutTruncated := false,
    timerPending := decide (timeoutMs > 0), killed := false, outcome := none }

/-- One event-handler step of `runMcporterCall`, parameterized by the timeout
constant. The timer callback kills the child and resolves with empty stdout,
a timeout message and a null code; it only runs while the timer is pending.
The error handler clears the timer and resolves with the stringified error.
The close handler clears the timer and resolves with the accumulated
buffers, appending a truncation marker to stderr when the shared flag is
set. The abort listener only kills the child. -/
def runStep (timeoutMs : Nat) (st : InvokeState) : Event → InvokeState
  | .data isErr chunk => onData st chunk isErr
  | .timeout =>
      if st.timerPending then
        resolveWith { st with timerPending := false, killed := true }
          ⟨"", timeoutMessage timeoutMs, none⟩
      else st
  | .spawnError err =>
      resolveWith { st with timerPending := false } ⟨"", err, none⟩
  | .close code =>
      if st.stdoutTruncated then
        resolveWith { st with timerPending := false }
          ⟨st.stdout, st.stderr ++ "\n[output truncated]", code⟩
      else
        resolveWith { st with timerPending := false }
          ⟨st.stdout, st.stderr, code⟩
  | .abortFire => { st with killed := true }

/-- Run an invocation from a given state through a list of events. -/
def runEventsFrom (timeoutMs : Nat) (st : InvokeState) (evs : List Event) :
    InvokeState :=
  evs.foldl (runStep timeoutMs) st

/-- Run an invocation from the initial state through a list of events. -/
def runEvents (timeoutMs : Nat) (evs : List Event) : InvokeState :=
  runEventsFrom timeoutMs (initState timeoutMs) evs

/-- Rendering of the exit code in the generic failure message; the
JavaScript template prints the literal text null for a null code. -/
def codeString : Option Int → String
  | none => "null"
  | some n => toString n

/-- Modelled from the spec: `jsonResult` lives in tools/common.js, which is
not part of the reviewed sources; per the design document a ToolResult is
just the structured JSON payload carried across the bridge boundary
(success payload, or a failure payload discriminated by an error field), so
the wrapper is the identity on payloads here. -/
def jsonResult (payload : Json) : Json := payload

/-- Argument vector built by `runMcporterCall`: the config flag pair is
pushed only when the config path string is truthy (non-empty), followed by
the fixed call subcommand, the tool name, the args flag and the
JSON-stringified parameters. -/
def mcporterArgs (toolName : String) (mcporterConfigPath : String)
    (jsonArgs : String) : List String :=
  (if mcporterConfigPath ≠ "" then ["--config", mcporterConfigPath] else [])
    ++ ["call", toolName, "--args", jsonArgs]

/-- The body of `execute` after `runMcporterCall` has settled: `call` is the
settled result of awaiting it (an exceptional completion is `Except.error`),
and `parse` models the JavaScript `JSON.parse` restricted to success or
failure. Translates lines 151-179 of mcp-local-tools.ts. -/
def interpretCall (parse : String → Option Json)
    (call : Except String ProcOutcome) : Json :=
  match call with
  | .error err =>
      jsonResult (Json.obj [("error", Json.bool true), ("message", Json.str err)])
  | .ok o =>
      if o.code ≠ some 0 then
        jsonResult (Json.obj
          [("error", Json.bool true),
           ("message", Json.str (if jsTrim o.stderr = "" then
              "mcporter call exited with code " ++ codeString o.code
            else jsTrim o.stderr)),
           ("stdout", Json.str (jsSlice o.stdout 2000))])
      else
        let trimmed := jsTrim o.stdout
        if trimmed = "" then
          jsonResult (Json.obj [("result", Json.null), ("raw", Json.str "")])
        else
          match parse trimmed with
          | some parsed => jsonResult parsed
          | none =>
              jsonResult (Json.obj
                [("result", Json.str trimmed), ("raw", Json.str trimmed)])

/-- The defensive default applied to `params` at the top of `execute`:
a non-plain-object value is replaced by the empty mapping. -/
def paramsRecord (params : Json) : Json :=
  if isPlainObject params then params else Json.obj []

/-- `execute` of a bridged tool: substitute the params record, build the
argument vector with the JSON-stringified params (`stringify` models
`JSON.stringify`), run the subprocess (modelled by the oracle `call` from
argv to a settled outcome or exception), and interpret the result. Total:
every input yields a ToolResult payload. -/
def execute (toolName : String) (mcporterConfigPath : String)
    (stringify : Json → String) (parse : String → Option Json)
    (call : List String → Except String ProcOutcome) (params : Json) : Json :=
  interpretCall parse
    (call (mcporterArgs toolName mcporterConfigPath
      (stringify (paramsRecord params))))

/-- Module-level cache of the default client tools loader: the cached list
and the path it was cached for. -/
structure CacheState where
  cached : Option (List Json)
  cachedPath : Option String

/-- First JSON object field with the given key, if any. -/
def lookupField (fields : List (String × Json)) (key : String) : Option Json :=
  match fields with
  | [] => none
  | (k, v) :: rest => if k = key then some v else lookupField rest key

/-- One item of the tools file is a client tool definition when it is an
object whose function field is an object whose name field is a string. -/
def isClientToolDefinition (item : Json) : Bool :=
  match item with
  | .obj fields =>
      match lookupField fields "function" with
      | some (.obj ffields) =>
          match lookupField ffields "name" with
          | some (.str _) => true
          | _ => false
      | _ => false
  | _ => false

/-- `isClientToolDefinitionArray` from the loader: an array all of whose
items are client tool definitions. -/
def isClientToolDefinitionArray (value : Json) : Bool :=
  match value with
  | .arr items => items.all isClientToolDefinition
  | _ => false

/-- The items of a JSON array value (used after the array shape check). -/
def Json.asArray : Json → List Json
  | .arr items => items
  | _ => []

/-- Resolution of the tools file path: the trimmed config value when
non-empty, else the trimmed environment value when non-empty, else the
built-in default path. -/
def resolveToolsPath (cfgPath envPath : Option String) : String :=
  let c := jsTrim (cfgPath.getD "")
  if c ≠ "" then c
  else
    let e := jsTrim (envPath.getD "")
    if e ≠ "" then e else "/app/config/default-client-tools.json"

/-- `loadDefaultClientTools`: serve from cache when the cached path matches
and a cached list exists (absent when the cached list is empty); otherwise
read and parse the file (`fs` models the file system read, `parse` models
`JSON.parse`; both failures land in the same catch), validate the shape,
cache the result (an empty list on any failure) keyed by the path, and
return the list, or absent when it is empty or invalid. -/
def loadDefaultClientTools (parse : String → Option Json)
    (fs : String → Except String String) (path : String) (st : CacheState) :
    Option (List Json) × CacheState :=
  if st.cachedPath = some path ∧ st.cached.isSome then
    match st.cached with
    | some l => (if l.length > 0 then some l else none, st)
    | none => (none, st)
  else
    match fs path with
    | .error _ => (none, { cachedPath := some path, cached := some [] })
    | .ok raw =>
        match parse raw with
        | none => (none, { cachedPath := some path, cached := some [] })
        | some parsed =>
            if isClientToolDefinitionArray parsed then
              let items := parsed.asArray
              (if items.length > 0 then some items else none,
               { cachedPath := some path, cached := some items })
            else
              (none, { cachedPath := some path, cached := some [] })

/-- `clearDefaultClientToolsCache`: reset both module-level variables. -/
def clearDefaultClientToolsCache : CacheState :=
  { cached := none, cachedPath := none }

/-- C1: every params value (object, array, primitive or null) leads to a
resolved ToolResult: a non-plain-object params is replaced by the empty
mapping and the call proceeds identically, and an exception from the
subprocess invocation is converted into a failure payload carrying the
stringified message instead of escaping `execute`. -/
theorem execute_never_rejects (toolName cfgPath : String)
    (stringify : Json → String) (parse : String → Option Json)
    (call : List String → Except String ProcOutcome) (params : Json) :
    (isPlainObject params = false →
      execute toolName cfgPath stringify parse call params =
        execute toolName cfgPath stringify parse call (Json.obj [])) ∧
    (∀ err,
      call (mcporterArgs toolName cfgPath (stringify (paramsRecord params))) =
          Except.error err →
      execute toolName cfgPath stringify parse call params =
        Json.obj [("error", Json.bool true), ("message", Json.str err)]) := by
  constructor
  · intro h
    unfold execute paramsRecord
    rw [h]
    simp [isPlainObject]
  · intro err hc
    unfold execute
    rw [hc]
    simp [interpretCall, jsonResult]

/-- Witness for C1 at a concrete non-object params value and a throwing
subprocess invocation. -/
theorem execute_never_rejects_witness :
    (execute "t" "" (fun _ => "") (fun _ => none)
        (fun _ => Except.error "boom") (Json.arr []) =
      execute "t" "" (fun _ => "") (fun _ => none)
        (fun _ => Except.error "boom") (Json.obj [])) ∧
    execute "t" "" (fun _ => "") (fun _ => none)
        (fun _ => Except.error "boom") (Json.arr []) =
      Json.obj [("error", Json.bool true), ("message", Json.str "boom")] :=
  ⟨(execute_never_rejects "t" "" (fun _ => "") (fun _ => none)
      (fun _ => Except.error "boom") (Json.arr [])).1 rfl,
   (execute_never_rejects "t" "" (fun _ => "") (fun _ => none)
      (fun _ => Except.error "boom") (Json.arr [])).2 "boom" rfl⟩

/-- C2: with exit code 0, the interpreter trims stdout and yields the
null/raw-empty payload on empty text, the parsed value itself when the text
parses as JSON, and the result/raw payload carrying the trimmed text when
the parse fails. -/
theorem interpret_success_payloads (parse : String → Option Json)
    (o : ProcOutcome) (h0 : o.code = some 0) :
    (jsTrim o.stdout = "" →
      interpretCall parse (Except.ok o) =
        Json.obj [("result", Json.null), ("raw", Json.str "")]) ∧
    (∀ v, jsTrim o.stdout ≠ "" → parse (jsTrim o.stdout) = some v →
      interpretCall parse (Except.ok o) = v) ∧
    (jsTrim o.stdout ≠ "" → parse (jsTrim o.stdout) = none →
      interpretCall parse (Except.ok o) =
        Json.obj [("result", Json.str (jsTrim o.stdout)),
          ("raw", Json.str (jsTrim o.stdout))]) := by
  refine ⟨?_, ?_, ?_⟩
  · intro ht
    simp [interpretCall, jsonResult, h0, ht]
  · intro v ht hp
    simp [interpretCall, jsonResult, h0, ht, hp]
  · intro ht hp
    simp [interpretCall, jsonResult, h0, ht, hp]

/-- Witness for C2 at three concrete outcomes: whitespace-only stdout,
stdout that parses as the number 42, and stdout that is not JSON. -/
theorem interpret_success_payloads_witness :
    (interpretCall (fun _ => none) (Except.ok ⟨"  ", "x", some 0⟩) =
      Json.obj [("result", Json.null), ("raw", Json.str "")]) ∧
    (interpretCall (fun s => if s = "42" then some (Json.num 42) else none)
      (Except.ok ⟨" 42 ", "", some 0⟩) = Json.num 42) ∧
    (interpretCall (fun _ => none) (Except.ok ⟨"hi", "", some 0⟩) =
      Json.obj [("result", Json.str "hi"), ("raw", Json.str "hi")]) := by
  refine ⟨(interpret_success_payloads (fun _ => none) ⟨"  ", "x", some 0⟩ rfl).1
      (by decide),
    (interpret_success_payloads (fun s => if s = "42" then some (Json.num 42)
        else none) ⟨" 42 ", "", some 0⟩ rfl).2.1 (Json.num 42) (by decide) ?_,
    ?_⟩
  · show (if jsTrim " 42 " = "42" then some (Json.num 42) else none) =
      some (Json.num 42)
    rw [show jsTrim " 42 " = "42" from by decide]
    simp
  · have h := (interpret_success_payloads (fun _ => none) ⟨"hi", "", some 0⟩
      rfl).2.2 (by decide) rfl
    rw [h, show jsTrim "hi" = "hi" from by decide]

/-- C3: with a nonzero or null exit code, the interpreter yields a failure
payload whose message is the trimmed stderr when non-empty and otherwise the
generic exited-with-code message, and whose partial-output field is the
first 2000 characters of stdout. -/
theorem interpret_failure_payload (parse : String → Option Json)
    (o : ProcOutcome) (h : o.code ≠ some 0) :
    (jsTrim o.stderr ≠ "" →
      interpretCall parse (Except.ok o) =
        Json.obj [("error", Json.bool true),
          ("message", Json.str (jsTrim o.stderr)),
          ("stdout", Json.str (jsSlice o.stdout 2000))]) ∧
    (jsTrim o.stderr = "" →
      interpretCall parse (Except.ok o) =
        Json.obj [("error", Json.bool true),
          ("message",
            Json.str ("mcporter call exited with code " ++ codeString o.code)),
          ("stdout", Json.str (jsSlice o.stdout 2000))]) := by
  constructor
  · intro hh
    simp [interpretCall, jsonResult, h, hh]
  · intro hh
    simp [interpretCall, jsonResult, h, hh]

/-- Witness for C3: exit code 2 with stderr boom yields the failure message
boom, matching the design document's concrete example. -/
theorem interpret_failure_payload_witness :
    interpretCall (fun _ => none) (Except.ok ⟨"out", "boom", some 2⟩) =
      Json.obj [("error", Json.bool true), ("message", Json.str "boom"),
        ("stdout", Json.str "out")] := by
  have h := (interpret_failure_payload (fun _ => none) ⟨"out", "boom", some 2⟩
    (by decide)).1 (by decide)
  rw [h, show jsTrim "boom" = "boom" from by decide,
    show jsSlice "out" 2000 = "out" from by decide]

/-- C8: the argument vector is discrete argv entries of the shape optional
config flag pair, the call subcommand, the tool name, the args flag and the
stringified params; the config pair is omitted entirely when no config path
is configured. -/
theorem mcporterArgs_shape (toolName cfgPath : String)
    (stringify : Json → String) (params : Json) :
    (cfgPath = "" →
      mcporterArgs toolName cfgPath (stringify (paramsRecord params)) =
        ["call", toolName, "--args", stringify (paramsRecord params)]) ∧
    (cfgPath ≠ "" →
      mcporterArgs toolName cfgPath (stringify (paramsRecord params)) =
        ["--config", cfgPath, "call", toolName, "--args",
          stringify (paramsRecord params)]) := by
  constructor
  · intro h
    simp [mcporterArgs, h]
  · intro h
    simp [mcporterArgs, h]

/-- Witness for C8 with and without a configured config path. -/
theorem mcporterArgs_shape_witness :
    (mcporterArgs "echo" "" ((fun _ => "null") (paramsRecord Json.null)) =
      ["call", "echo", "--args", "null"]) ∧
    (mcporterArgs "echo" "cfg.json" ((fun _ => "null") (paramsRecord Json.null)) =
      ["--config", "cfg.json", "call", "echo", "--args", "null"]) :=
  ⟨(mcporterArgs_shape "echo" "" (fun _ => "null") Json.null).1 rfl,
   (mcporterArgs_shape "echo" "cfg.json" (fun _ => "null") Json.null).2
     (by decide)⟩

/-- C6: a spawn error resolves the invocation (it does not throw) with a
null exit code, empty stdout, and the stringified spawn error as stderr,
and clears the timeout timer. -/
theorem spawn_error_resolution (timeoutMs : Nat) (st : InvokeState)
    (err : String) (h : st.outcome = none) :
    (runStep timeoutMs st (Event.spawnError err)).outcome =
        some ⟨"", err, none⟩ ∧
    (runStep timeoutMs st (Event.spawnError err)).timerPending = false := by
  simp [runStep, resolveWith, h]

/-- Witness for C6 at the initial state with a concrete spawn error. -/
theorem spawn_error_resolution_witness :
    (runStep 60000 (initState 60000)
        (Event.spawnError "Error: spawn mcporter ENOENT")).outcome =
      some ⟨"", "Error: spawn mcporter ENOENT", none⟩ :=
  (spawn_error_resolution 60000 (initState 60000)
    "Error: spawn mcporter ENOENT" rfl).1

/-- Helper: `onData` only touches the buffers and the truncation flag. -/
theorem onData_timerPending (st : InvokeState) (chunk : String)
    (isErr : Bool) : (onData st chunk isErr).timerPending = st.timerPending := by
  cases isErr <;> simp [onData] <;> split <;> rfl

/-- Helper: `onData` never resolves the invocation. -/
theorem onData_outcome (st : InvokeState) (chunk : String) (isErr : Bool) :
    (onData st chunk isErr).outcome = st.outcome := by
  cases isErr <;> simp [onData] <;> split <;> rfl

/-- Helper: `onData` never sends a kill signal. -/
theorem onData_killed (st : InvokeState) (chunk : String) (isErr : Bool) :
    (onData st chunk isErr).killed = st.killed := by
  cases isErr <;> simp [onData] <;> split <;> rfl

/-- Helper: `onData` never clears the truncation flag. -/
theorem onData_stdoutTruncated_true (st : InvokeState) (chunk : String)
    (isErr : Bool) (h : st.stdoutTruncated = true) :
    (onData st chunk isErr).stdoutTruncated = true := by
  cases isErr <;> simp [onData] <;> split <;> simp [h]

/-- Helper: resolving never touches the timer flag of its argument state. -/
theorem resolveWith_timerPending (st : InvokeState) (o : ProcOutcome) :
    (resolveWith st o).timerPending = st.timerPending := by
  rcases ho : st.outcome <;> simp [resolveWith, ho]

/-- Helper: after a resolve call an outcome is always recorded. -/
theorem resolveWith_outcome_isSome (st : InvokeState) (o : ProcOutcome) :
    (resolveWith st o).outcome.isSome = true := by
  rcases ho : st.outcome <;> simp [resolveWith, ho]

/-- Helper: resolving preserves the truncation flag. -/
theorem resolveWith_stdoutTruncated (st : InvokeState) (o : ProcOutcome) :
    (resolveWith st o).stdoutTruncated = st.stdoutTruncated := by
  rcases ho : st.outcome <;> simp [resolveWith, ho]

/-- Helper: every event handler preserves a cleared timer flag. -/
theorem timerPending_stays_false (timeoutMs : Nat) (st : InvokeState)
    (e : Event) (h : st.timerPending = false) :
    (runStep timeoutMs st e).timerPending = false := by
  cases e with
  | data isErr chunk =>
      rw [show runStep timeoutMs st (Event.data isErr chunk) =
        onData st chunk isErr from rfl, onData_timerPending]
      exact h
  | timeout => simp [runStep, h]
  | spawnError err => simp [runStep, resolveWith_timerPending]
  | close code =>
      cases hb : st.stdoutTruncated <;>
        simp [runStep, hb, resolveWith_timerPending]
  | abortFire => simpa [runStep] using h

/-- Helper: a cleared timer flag is preserved along any event trace. -/
theorem runEventsFrom_timerPending_false (timeoutMs : Nat) (evs : List Event) :
    ∀ st : InvokeState, st.timerPending = false →
      (runEventsFrom timeoutMs st evs).timerPending = false := by
  induction evs with
  | nil => intro st h; exact h
  | cons e rest ih =>
      intro st h
      exact ih _ (timerPending_stays_false timeoutMs st e h)

/-- C4: when the armed timer fires on an unresolved invocation the child is
killed and the call resolves with empty stdout (accumulated stdout is
discarded from the outcome), the timeout diagnostic as stderr, and a null
exit code; with a timeout constant of 0 the timer is never armed and the
timeout event is a no-op on any reachable state. -/
theorem timeout_resolution (timeoutMs : Nat) (st : InvokeState)
    (evs : List Event) (hp : st.timerPending = true) (ho : st.outcome = none) :
    ((runStep timeoutMs st Event.timeout).outcome =
        some ⟨"", timeoutMessage timeoutMs, none⟩ ∧
     (runStep timeoutMs st Event.timeout).killed = true) ∧
    runStep 0 (runEvents 0 evs) Event.timeout = runEvents 0 evs := by
  constructor
  · constructor
    · simp [runStep, hp, resolveWith, ho]
    · simp [runStep, hp, resolveWith, ho]
  · have hf : (runEvents 0 evs).timerPending = false :=
      runEventsFrom_timerPending_false 0 evs (initState 0) (by simp [initState])
    simp [runStep, hf]

/-- Witness for C4 at a state that has accumulated stdout before the timer
fires. -/
theorem timeout_resolution_witness :
    (runStep 60000 (runEvents 60000 [Event.data false "hello"])
        Event.timeout).outcome =
      some ⟨"", timeoutMessage 60000, none⟩ ∧
    runStep 0 (runEvents 0 [Event.data false "hello"]) Event.timeout =
      runEvents 0 [Event.data false "hello"] :=
  ⟨((timeout_resolution 60000 (runEvents 60000 [Event.data false "hello"])
      [Event.data false "hello"] (by decide) (by decide)).1).1,
   (timeout_resolution 60000 (runEvents 60000 [Event.data false "hello"])
      [Event.data false "hello"] (by decide) (by decide)).2⟩

/-- Helper: once the invocation has resolved, no later event changes the
resolution value. -/
theorem outcome_preserved_step (timeoutMs : Nat) (st : InvokeState)
    (o : ProcOutcome) (e : Event) (h : st.outcome = some o) :
    (runStep timeoutMs st e).outcome = some o := by
  cases e with
  | data isErr chunk =>
      rw [show runStep timeoutMs st (Event.data isErr chunk) =
        onData st chunk isErr from rfl, onData_outcome]
      exact h
  | timeout =>
      cases hp : st.timerPending <;> simp [runStep, hp, resolveWith, h]
  | spawnError err => simp [runStep, resolveWith, h]
  | close code =>
      cases hb : st.stdoutTruncated <;> simp [runStep, hb, resolveWith, h]
  | abortFire => simpa [runStep] using h

/-- Helper: resolution is preserved by any trace of later events. -/
theorem outcome_preserved_trace (timeoutMs : Nat) (evs : List Event) :
    ∀ (st : InvokeState) (o : ProcOutcome), st.outcome = some o →
      (runEventsFrom timeoutMs st evs).outcome = some o := by
  induction evs with
  | nil => intro st o h; exact h
  | cons e rest ih =>
      intro st o h
      exact ih _ o (outcome_preserved_step timeoutMs st o e h)

/-- C5: the invoker resolves exactly once: once an outcome is recorded every
later event leaves it unchanged (first completion wins), the spawn-error and
close handlers always clear the pending timer, and each of those handlers
leaves the invocation resolved. -/
theorem single_resolution (timeoutMs : Nat) (st st2 : InvokeState)
    (o : ProcOutcome) (evs : List Event) (err : String) (code : Option Int)
    (h : st.outcome = some o) :
    (runEventsFrom timeoutMs st evs).outcome = some o ∧
    (runStep timeoutMs st2 (Event.spawnError err)).timerPending = false ∧
    (runStep timeoutMs st2 (Event.close code)).timerPending = false ∧
    (runStep timeoutMs st2 (Event.spawnError err)).outcome.isSome = true ∧
    (runStep timeoutMs st2 (Event.close code)).outcome.isSome = true := by
  refine ⟨outcome_preserved_trace timeoutMs evs st o h, ?_, ?_, ?_, ?_⟩
  · simp [runStep, resolveWith_timerPending]
  · cases hb : st2.stdoutTruncated <;>
      simp [runStep, hb, resolveWith_timerPending]
  · simp [runStep, resolveWith_outcome_isSome]
  · cases hb : st2.stdoutTruncated <;>
      simp [runStep, hb, resolveWith_outcome_isSome]

/-- Witness for C5: after a spawn-error resolution, a later close event (and
a timeout event) leaves the recorded outcome unchanged. -/
theorem single_resolution_witness :
    (runEventsFrom 60000
        (runStep 60000 (initState 60000) (Event.spawnError "e1"))
        [Event.close (some 0), Event.timeout]).outcome =
      some ⟨"", "e1", none⟩ ∧
    (runStep 60000 (initState 60000) (Event.close (some 0))).timerPending =
      false :=
  ⟨(single_resolution 60000
      (runStep 60000 (initState 60000) (Event.spawnError "e1"))
      (initState 60000) ⟨"", "e1", none⟩ [Event.close (some 0), Event.timeout]
      "e2" (some 0) (by decide)).1,
   (single_resolution 60000
      (runStep 60000 (initState 60000) (Event.spawnError "e1"))
      (initState 60000) ⟨"", "e1", none⟩ [Event.close (some 0), Event.timeout]
      "e2" (some 0) (by decide)).2.2.1⟩

/-- A chunk one character longer than the output budget. -/
def bigChunk : String := String.mk (List.replicate 500001 'a')

/-- Helper: the length of the oversized chunk. -/
theorem bigChunk_length : bigChunk.length = 500001 := by
  show (List.replicate 500001 'a').length = 500001
  exact List.length_replicate _ _

/-- Helper: an overflowing stderr chunk truncates the stderr buffer and sets
the shared flag, leaving stdout untouched. -/
theorem onData_overflow_err (st : InvokeState) (chunk : String)
    (h : (st.stderr ++ chunk).length > MCPORTER_MAX_OUTPUT_CHARS) :
    onData st chunk true =
      { st with stdoutTruncated := true,
                stderr := jsSlice (st.stderr ++ chunk)
                  MCPORTER_MAX_OUTPUT_CHARS } := by
  have h' : MCPORTER_MAX_OUTPUT_CHARS < st.stderr.length + chunk.length := by
    simpa [String.length_append] using h
  simp [onData, h', Nat.not_le_of_lt h']

/-- Helper: a slice to the budget never exceeds the budget. -/
theorem jsSlice_length_le (s : String) (n : Nat) :
    (jsSlice s n).length ≤ n := by
  show (s.data.take n).length ≤ n
  rw [List.length_take]
  exact Nat.min_le_left _ _

/-- Helper: an overflowing stdout chunk truncates the stdout buffer and sets
the shared flag, leaving stderr untouched. -/
theorem onData_overflow_out (st : InvokeState) (chunk : String)
    (h : (st.stdout ++ chunk).length > MCPORTER_MAX_OUTPUT_CHARS) :
    onData st chunk false =
      { st with stdoutTruncated := true,
                stdout := jsSlice (st.stdout ++ chunk)
                  MCPORTER_MAX_OUTPUT_CHARS } := by
  have h' : MCPORTER_MAX_OUTPUT_CHARS < st.stdout.length + chunk.length := by
    simpa [String.length_append] using h
  simp [onData, h', Nat.not_le_of_lt h']

/-- Helper: a stderr chunk that stays within the budget is appended as is. -/
theorem onData_no_overflow_err (st : InvokeState) (chunk : String)
    (h : (st.stderr ++ chunk).length ≤ MCPORTER_MAX_OUTPUT_CHARS) :
    onData st chunk true = { st with stderr := st.stderr ++ chunk } := by
  have h' : ¬ MCPORTER_MAX_OUTPUT_CHARS <
      st.stderr.length + chunk.length := by
    simp [String.length_append] at h
    omega
  simp [onData, h']

/-- Helper: a stdout chunk that stays within the budget is appended as is. -/
theorem onData_no_overflow_out (st : InvokeState) (chunk : String)
    (h : (st.stdout ++ chunk).length ≤ MCPORTER_MAX_OUTPUT_CHARS) :
    onData st chunk false = { st with stdout := st.stdout ++ chunk } := by
  have h' : ¬ MCPORTER_MAX_OUTPUT_CHARS <
      st.stdout.length + chunk.length := by
    simp [String.length_append] at h
    omega
  simp [onData, h']

/-- C7 counterexample: the streams are not flagged independently, because
the code keeps a single flag (the variable named stdoutTruncated) shared by
both streams: one oversized stderr chunk from the initial state sets it even
though the stdout stream never received any data at all. -/
theorem truncation_flag_not_independent :
    (runStep 60000 (initState 60000)
      (Event.data true bigChunk)).stdoutTruncated = true ∧
    (runStep 60000 (initState 60000) (Event.data true bigChunk)).stdout =
      "" := by
  have hov : ((initState 60000).stderr ++ bigChunk).length >
      MCPORTER_MAX_OUTPUT_CHARS := by
    show bigChunk.length > MCPORTER_MAX_OUTPUT_CHARS
    rw [bigChunk_length]
    decide
  have hstep : runStep 60000 (initState 60000) (Event.data true bigChunk) =
      { initState 60000 with stdoutTruncated := true,
                              stderr := jsSlice
                                ((initState 60000).stderr ++ bigChunk)
                                MCPORTER_MAX_OUTPUT_CHARS } := by
    exact onData_overflow_err (initState 60000) bigChunk hov
  rw [hstep]
  exact ⟨rfl, rfl⟩

/-- C7 amended: whenever an appended chunk makes a stream's accumulated
length exceed the budget - from any prior flag state, on either stream -
the stored buffer is truncated to exactly the budget and the single
truncation flag shared by the two streams is set; the stored buffer never
exceeds the budget and the other stream's buffer is untouched by the append
(the buffers are accumulated independently, unconditionally); once the flag
is true it stays true under every event; and a natural close with the flag
set resolves with the truncation marker appended to stderr while the exit
code is whatever the process returned. -/
theorem truncation_shared_flag_behavior (st : InvokeState) (chunk : String)
    (isErr : Bool) (timeoutMs : Nat) (e : Event) (code : Option Int) :
    (((if isErr then st.stderr else st.stdout) ++ chunk).length >
        MCPORTER_MAX_OUTPUT_CHARS →
      (if isErr then (onData st chunk isErr).stderr
        else (onData st chunk isErr).stdout).length =
          MCPORTER_MAX_OUTPUT_CHARS ∧
      (onData st chunk isErr).stdoutTruncated = true) ∧
    ((if isErr then (onData st chunk isErr).stderr
       else (onData st chunk isErr).stdout).length ≤
      MCPORTER_MAX_OUTPUT_CHARS) ∧
    (if isErr then (onData st chunk isErr).stdout = st.stdout
     else (onData st chunk isErr).stderr = st.stderr) ∧
    (st.stdoutTruncated = true →
      (runStep timeoutMs st e).stdoutTruncated = true) ∧
    (st.stdoutTruncated = true → st.outcome = none →
      (runStep timeoutMs st (Event.close code)).outcome =
        some ⟨st.stdout, st.stderr ++ "\n[output truncated]", code⟩) := by
  refine ⟨?_, ?_, ?_, ?_, ?_⟩
  · intro hov
    have hlen : (jsSlice ((if isErr then st.stderr else st.stdout) ++ chunk)
        MCPORTER_MAX_OUTPUT_CHARS).length = MCPORTER_MAX_OUTPUT_CHARS := by
      show (((if isErr then st.stderr else st.stdout) ++ chunk).data.take
        MCPORTER_MAX_OUTPUT_CHARS).length = MCPORTER_MAX_OUTPUT_CHARS
      rw [List.length_take]
      exact Nat.min_eq_left (Nat.le_of_lt hov)
    constructor
    · cases isErr <;> simp_all [onData]
    · cases isErr <;> simp_all [onData]
  · cases isErr with
    | false =>
        by_cases hov : (st.stdout ++ chunk).length >
            MCPORTER_MAX_OUTPUT_CHARS
        · rw [onData_overflow_out st chunk hov]
          simpa using jsSlice_length_le (st.stdout ++ chunk)
            MCPORTER_MAX_OUTPUT_CHARS
        · rw [onData_no_overflow_out st chunk (Nat.le_of_not_lt hov)]
          simpa [String.length_append] using Nat.le_of_not_lt hov
    | true =>
        by_cases hov : (st.stderr ++ chunk).length >
            MCPORTER_MAX_OUTPUT_CHARS
        · rw [onData_overflow_err st chunk hov]
          simpa using jsSlice_length_le (st.stderr ++ chunk)
            MCPORTER_MAX_OUTPUT_CHARS
        · rw [onData_no_overflow_err st chunk (Nat.le_of_not_lt hov)]
          simpa [String.length_append] using Nat.le_of_not_lt hov
  · cases isErr <;> simp [onData] <;> split <;> rfl
  · intro hfl
    cases e with
    | data isErr2 chunk2 =>
        rw [show runStep timeoutMs st (Event.data isErr2 chunk2) =
          onData st chunk2 isErr2 from rfl]
        exact onData_stdoutTruncated_true st chunk2 isErr2 hfl
    | timeout =>
        cases hp : st.timerPending <;>
          simp [runStep, hp, resolveWith_stdoutTruncated, hfl]
    | spawnError err => simp [runStep, resolveWith_stdoutTruncated, hfl]
    | close code2 =>
        cases hb : st.stdoutTruncated <;>
          simp [runStep, hb, resolveWith_stdoutTruncated, hfl] at hfl ⊢
    | abortFire => simpa [runStep] using hfl
  · intro hfl ho
    simp [runStep, hfl, resolveWith, ho]

/-- Witness for the amended C7: an oversized stdout chunk arriving at the
initial state - whose shared flag is still false - truncates the stdout
buffer to exactly the budget and sets the flag, while leaving stderr
untouched; and at a flag-true state the flag survives an abort event and a
natural close carries the marker with the exit code preserved. -/
theorem truncation_shared_flag_behavior_witness :
    ((onData (initState 60000) bigChunk false).stdout.length =
        MCPORTER_MAX_OUTPUT_CHARS ∧
     (onData (initState 60000) bigChunk false).stdoutTruncated = true) ∧
    (onData (initState 60000) bigChunk false).stderr =
      (initState 60000).stderr ∧
    (runStep 60000 ⟨"o", "x", true, true, false, none⟩
        Event.abortFire).stdoutTruncated = true ∧
    (runStep 60000 ⟨"o", "x", true, true, false, none⟩
        (Event.close (some 0))).outcome =
      some ⟨"o", "x" ++ "\n[output truncated]", some 0⟩ := by
  have hov : ((if false then (initState 60000).stderr
      else (initState 60000).stdout) ++ bigChunk).length >
      MCPORTER_MAX_OUTPUT_CHARS := by
    show bigChunk.length > MCPORTER_MAX_OUTPUT_CHARS
    rw [bigChunk_length]
    decide
  have hne : ¬((false : Bool) = true) := by decide
  refine ⟨?_, ?_, ?_, ?_⟩
  · have h := (truncation_shared_flag_behavior (initState 60000) bigChunk
      false 60000 Event.abortFire (some 0)).1 hov
    rw [if_neg hne] at h
    exact h
  · have h := (truncation_shared_flag_behavior (initState 60000) bigChunk
      false 60000 Event.abortFire (some 0)).2.2.1
    rw [if_neg hne] at h
    exact h
  · exact (truncation_shared_flag_behavior ⟨"o", "x", true, true, false, none⟩
      "c" true 60000 Event.abortFire (some 0)).2.2.2.1 rfl
  · exact (truncation_shared_flag_behavior ⟨"o", "x", true, true, false, none⟩
      "c" true 60000 Event.abortFire (some 0)).2.2.2.2 rfl rfl

/-- Helper: after any load for a path, a repeated load with the same path is
answered from the cache: the second call returns the first call's result and
leaves the state untouched, whatever file system and parser it is given. -/
theorem load_roundtrip (parse parse2 : String → Option Json)
    (fs fs2 : String → Except String String) (path : String)
    (st : CacheState) :
    loadDefaultClientTools parse2 fs2 path
        (loadDefaultClientTools parse fs path st).2 =
      ((loadDefaultClientTools parse fs path st).1,
       (loadDefaultClientTools parse fs path st).2) := by
  by_cases hc : st.cachedPath = some path ∧ st.cached.isSome
  · obtain ⟨l, hl⟩ := Option.isSome_iff_exists.mp hc.2
    simp [loadDefaultClientTools, hc, hl]
  · rcases hfs : fs path with e | raw
    · simp [loadDefaultClientTools, hc, hfs]
    · rcases hp : parse raw with _ | j
      · simp [loadDefaultClientTools, hc, hfs, hp]
      · by_cases hv : isClientToolDefinitionArray j = true
        · simp [loadDefaultClientTools, hc, hfs, hp, hv]
        · simp [loadDefaultClientTools, hc, hfs, hp, hv]

/-- C9: on a cache miss the loader returns absent when the file read fails,
when the content does not parse as JSON, or when the parsed value is not a
structurally valid tool definition array; it never throws (it is a total
function); and a repeated call with the same path is served from the cache,
regardless of the file system state at that later time. -/
theorem load_tools_absent_and_cached (parse parse2 : String → Option Json)
    (fs fs2 : String → Except String String) (path e raw : String)
    (st : CacheState) (j : Json)
    (hmiss : ¬(st.cachedPath = some path ∧ st.cached.isSome)) :
    ((fs path = Except.error e →
        (loadDefaultClientTools parse fs path st).1 = none) ∧
     (fs path = Except.ok raw → parse raw = none →
        (loadDefaultClientTools parse fs path st).1 = none) ∧
     (fs path = Except.ok raw → parse raw = some j →
        isClientToolDefinitionArray j = false →
        (loadDefaultClientTools parse fs path st).1 = none)) ∧
    loadDefaultClientTools parse2 fs2 path
        (loadDefaultClientTools parse fs path st).2 =
      ((loadDefaultClientTools parse fs path st).1,
       (loadDefaultClientTools parse fs path st).2) := by
  refine ⟨⟨?_, ?_, ?_⟩, load_roundtrip parse parse2 fs fs2 path st⟩
  · intro hfs
    simp [loadDefaultClientTools, hmiss, hfs]
  · intro hfs hp
    simp [loadDefaultClientTools, hmiss, hfs, hp]
  · intro hfs hp hv
    simp [loadDefaultClientTools, hmiss, hfs, hp, hv]

/-- Witness for C9: an empty cache with a missing file, an unparsable file,
and a file holding a JSON value that is not an array of tool definitions,
plus a cached repeat of the missing-file load. -/
theorem load_tools_absent_and_cached_witness :
    ((loadDefaultClientTools (fun _ => none) (fun _ => Except.error "ENOENT")
        "/p" ⟨none, none⟩).1 = none) ∧
    ((loadDefaultClientTools (fun _ => none) (fun _ => Except.ok "not json")
        "/p" ⟨none, none⟩).1 = none) ∧
    ((loadDefaultClientTools (fun _ => some Json.null)
        (fun _ => Except.ok "null") "/p" ⟨none, none⟩).1 = none) ∧
    loadDefaultClientTools (fun _ => none) (fun _ => Except.ok "[]") "/p"
        (loadDefaultClientTools (fun _ => none)
          (fun _ => Except.error "ENOENT") "/p" ⟨none, none⟩).2 =
      ((loadDefaultClientTools (fun _ => none)
          (fun _ => Except.error "ENOENT") "/p" ⟨none, none⟩).1,
       (loadDefaultClientTools (fun _ => none)
          (fun _ => Except.error "ENOENT") "/p" ⟨none, none⟩).2) :=
  ⟨((load_tools_absent_and_cached (fun _ => none) (fun _ => none)
      (fun _ => Except.error "ENOENT") (fun _ => Except.ok "[]") "/p" "ENOENT"
      "x" ⟨none, none⟩ Json.null (by simp)).1).1 rfl,
   ((load_tools_absent_and_cached (fun _ => none) (fun _ => none)
      (fun _ => Except.ok "not json") (fun _ => Except.ok "[]") "/p" "e"
      "not json" ⟨none, none⟩ Json.null (by simp)).1).2.1 rfl rfl,
   ((load_tools_absent_and_cached (fun _ => some Json.null) (fun _ => none)
      (fun _ => Except.ok "null") (fun _ => Except.ok "[]") "/p" "e" "null"
      ⟨none, none⟩ Json.null (by simp)).1).2.2 rfl rfl rfl,
   (load_tools_absent_and_cached (fun _ => none) (fun _ => none)
      (fun _ => Except.error "ENOENT") (fun _ => Except.ok "[]") "/p" "ENOENT"
      "x" ⟨none, none⟩ Json.null (by simp)).2⟩

/-- C10: a file that parses to a valid but empty array is returned as
absent while still being cached (as the empty list, like every failed
load), a failed load is served from the cache on the next call with the
same path even if the file would now read successfully, and a state whose
cached path differs from the requested path (or whose cache is cleared)
behaves exactly like the explicitly cleared cache, re-reading the file. -/
theorem load_tools_empty_and_failure_cached
    (parse parse2 : String → Option Json)
    (fs fs2 : String → Except String String) (path path2 e raw : String)
    (st st2 : CacheState)
    (hmiss : ¬(st.cachedPath = some path ∧ st.cached.isSome)) :
    (fs path = Except.ok raw → parse raw = some (Json.arr []) →
       loadDefaultClientTools parse fs path st =
         (none, { cached := some [], cachedPath := some path })) ∧
    (fs path = Except.error e →
       loadDefaultClientTools parse fs path st =
         (none, { cached := some [], cachedPath := some path }) ∧
       (loadDefaultClientTools parse2 fs2 path
          (loadDefaultClientTools parse fs path st).2).1 = none) ∧
    (st2.cached = none ∨ st2.cachedPath ≠ some path2 →
       loadDefaultClientTools parse2 fs2 path2 st2 =
         loadDefaultClientTools parse2 fs2 path2
           clearDefaultClientToolsCache) := by
  refine ⟨?_, ?_, ?_⟩
  · intro hfs hp
    simp [loadDefaultClientTools, hmiss, hfs, hp, isClientToolDefinitionArray,
      Json.asArray]
  · intro hfs
    have h1 : loadDefaultClientTools parse fs path st =
        (none, { cached := some [], cachedPath := some path }) := by
      simp [loadDefaultClientTools, hmiss, hfs]
    refine ⟨h1, ?_⟩
    rw [h1]
    simp [loadDefaultClientTools]
  · intro hm
    have hmiss2 : ¬(st2.cachedPath = some path2 ∧ st2.cached.isSome) := by
      rcases hm with hm | hm
      · intro hcontra
        rw [hm] at hcontra
        simp at hcontra
      · intro hcontra
        exact hm hcontra.1
    simp [loadDefaultClientTools, hmiss2, clearDefaultClientToolsCache]

/-- Witness for C10: a valid empty tools file, a missing file cached as a
failure and served from the cache on repeat, and a path change that behaves
like a cleared cache. -/
theorem load_tools_empty_and_failure_cached_witness :
    (loadDefaultClientTools (fun _ => some (Json.arr []))
        (fun _ => Except.ok "[]") "/p" ⟨none, none⟩ =
      (none, { cached := some [], cachedPath := some "/p" })) ∧
    ((loadDefaultClientTools (fun _ => some (Json.arr []))
        (fun _ => Except.ok "[]") "/p"
        (loadDefaultClientTools (fun _ => none)
          (fun _ => Except.error "ENOENT") "/p" ⟨none, none⟩).2).1 = none) ∧
    (loadDefaultClientTools (fun _ => none) (fun _ => Except.error "ENOENT")
        "/q" ⟨some [], some "/p"⟩ =
      loadDefaultClientTools (fun _ => none) (fun _ => Except.error "ENOENT")
        "/q" clearDefaultClientToolsCache) :=
  ⟨(load_tools_empty_and_failure_cached (fun _ => some (Json.arr []))
      (fun _ => none) (fun _ => Except.ok "[]") (fun _ => Except.ok "[]")
      "/p" "/q" "e" "[]" ⟨none, none⟩ ⟨none, none⟩ (by simp)).1 rfl rfl,
   ((load_tools_empty_and_failure_cached (fun _ => none)
      (fun _ => some (Json.arr [])) (fun _ => Except.error "ENOENT")
      (fun _ => Except.ok "[]") "/p" "/q" "ENOENT" "x" ⟨none, none⟩
      ⟨none, none⟩ (by simp)).2.1 rfl).2,
   (load_tools_empty_and_failure_cached (fun _ => none) (fun _ => none)
      (fun _ => Except.error "ENOENT") (fun _ => Except.error "ENOENT") "/x"
      "/q" "e" "x" ⟨none, none⟩ ⟨some [], some "/p"⟩ (by simp)).2.2
     (Or.inr (by simp))⟩

end OpenClaw
